import Mathlib

/-!
# Verification of the energy unit converter (`app.py`)

Shallow embedding of the conversion core of `src/app.py`: the unit registry
(`unit_map`), the conversion function (`convert`), the lenient numeric input
parser (`parse_numbers`, including a model of Python's builtin `float()`
string parsing), and the batch-conversion loop of the UI.

Python `float` values are modelled as exact rational numbers (`ℚ`); the
decimal literals of the source become the exact rationals they denote.
Python exceptions (`KeyError` on a missing dict key, `ZeroDivisionError`
on division by zero) are modelled with `Except`.
-/

set_option autoImplicit false

/-- One registry entry: display label and the factor converting one unit to
MMBtu. Mirrors the frozen dataclass `Unit` of `app.py` (the name `Unit` is
taken in Lean, hence the prime). -/
structure Unit' where
  label : String
  to_mmbtu : ℚ
  deriving DecidableEq, Repr

/-- The fixed display order of the six unit identifiers (`UNITS_ORDER` in
`app.py`). -/
def UNITS_ORDER : List String := ["TBtu", "MMBtu", "Mth", "GWh", "MWh", "bbl"]

/-- The unit registry built from the configurable `mmbtu_per_barrel` ratio,
as an association list that mirrors the Python dict literal of
`unit_map` (same keys, same insertion order, same factors; the decimal
float literals are read as exact rationals). -/
def unit_map (mmbtu_per_barrel : ℚ) : List (String × Unit') :=
  [ ("TBtu", ⟨"Trillion Btu (TBtu)", 1000000⟩),
    ("MMBtu", ⟨"Million Btu (MMBtu)", 1⟩),
    ("Mth", ⟨"Million therms (Mth)", 100000⟩),
    ("GWh", ⟨"Gigawatt-hour (GWh)", 3412141633 / 1000000⟩),
    ("MWh", ⟨"Megawatt-hour (MWh)", 3412141633 / 1000000000⟩),
    ("bbl", ⟨"Barrel (crude)", mmbtu_per_barrel⟩) ]

/-- The factor-to-base of a unit identifier in the registry built from
`r` (`0` for identifiers not in the registry; only used under a
membership hypothesis). -/
def factorToBase (r : ℚ) (u : String) : ℚ :=
  (((unit_map r).lookup u).map Unit'.to_mmbtu).getD 0

/-- Errors the conversion function can raise, mirroring the Python
exceptions: `KeyError` when a unit identifier is not a key of the registry
dict (the spec's `UnknownUnit`), `ZeroDivisionError` when the divisor
factor is zero. -/
inductive ConvError where
  | UnknownUnit (u : String)
  | ZeroDivisionError
  deriving DecidableEq, Repr

/-- `convert` of `app.py`: look up the source unit, scale into MMBtu, look
up the target unit, divide by its factor. Lookups happen in source order
(`from_unit` before `to_unit`, as in the Python expression evaluation);
a missing key raises `KeyError`, division by a zero factor raises
`ZeroDivisionError`. -/
def convert (value : ℚ) (from_unit to_unit : String) (mmbtu_per_barrel : ℚ) :
    Except ConvError ℚ :=
  let umap := unit_map mmbtu_per_barrel
  match umap.lookup from_unit with
  | none => .error (.UnknownUnit from_unit)
  | some uf =>
    let val_in_mmbtu := value * uf.to_mmbtu
    match umap.lookup to_unit with
    | none => .error (.UnknownUnit to_unit)
    | some ut =>
      if ut.to_mmbtu = 0 then .error .ZeroDivisionError
      else .ok (val_in_mmbtu / ut.to_mmbtu)

/-- One output row of the batch loop of `app.py`
(`{"Input": v, "From": from_unit, "To": tgt, "Result": ...}`). -/
structure Row where
  input : ℚ
  src : String
  tgt : String
  result : ℚ
  deriving DecidableEq, Repr

/-- The inner `for tgt in extra_targets` loop of the batch computation in
`app.py`: append one row per target to the accumulated `rows`; a Python
exception raised by `convert` aborts the whole loop (fail-fast). -/
def batchInner (v : ℚ) (from_unit : String) (targets : List String)
    (mmbtu_per_barrel : ℚ) (rows : List Row) : Except ConvError (List Row) :=
  match targets with
  | [] => .ok rows
  | tgt :: rest =>
    match convert v from_unit tgt mmbtu_per_barrel with
    | .error e => .error e
    | .ok res => batchInner v from_unit rest mmbtu_per_barrel
        (rows ++ [⟨v, from_unit, tgt, res⟩])

/-- The outer `for v in values` loop of the batch computation in
`app.py`: run the inner target loop for each value, threading the
accumulated `rows`. -/
def batchOuter (values : List ℚ) (from_unit : String) (targets : List String)
    (mmbtu_per_barrel : ℚ) (rows : List Row) : Except ConvError (List Row) :=
  match values with
  | [] => .ok rows
  | v :: vs =>
    match batchInner v from_unit targets mmbtu_per_barrel rows with
    | .error e => .error e
    | .ok rows' => batchOuter vs from_unit targets mmbtu_per_barrel rows'

/-- The batch loop of `app.py` (lines 153–165): start from `rows = []`,
outer loop over the parsed values, inner loop over the target units, one
row appended per pair via `convert`. -/
def convertBatch (values : List ℚ) (from_unit : String) (targets : List String)
    (mmbtu_per_barrel : ℚ) : Except ConvError (List Row) :=
  batchOuter values from_unit targets mmbtu_per_barrel []

instance {ε α : Type} [DecidableEq ε] [DecidableEq α] :
    DecidableEq (Except ε α) := fun a b =>
  match a, b with
  | .ok x, .ok y => decidable_of_iff (x = y) (by simp)
  | .ok _, .error _ => .isFalse (by simp)
  | .error _, .ok _ => .isFalse (by simp)
  | .error e, .error e' => decidable_of_iff (e = e') (by simp)

theorem lookup_TBtu (r : ℚ) :
    (unit_map r).lookup "TBtu" = some ⟨"Trillion Btu (TBtu)", 1000000⟩ := rfl

theorem lookup_MMBtu (r : ℚ) :
    (unit_map r).lookup "MMBtu" = some ⟨"Million Btu (MMBtu)", 1⟩ := rfl

theorem lookup_Mth (r : ℚ) :
    (unit_map r).lookup "Mth" = some ⟨"Million therms (Mth)", 100000⟩ := rfl

theorem lookup_GWh (r : ℚ) :
    (unit_map r).lookup "GWh" =
      some ⟨"Gigawatt-hour (GWh)", 3412141633 / 1000000⟩ := rfl

theorem lookup_MWh (r : ℚ) :
    (unit_map r).lookup "MWh" =
      some ⟨"Megawatt-hour (MWh)", 3412141633 / 1000000000⟩ := rfl

theorem lookup_bbl (r : ℚ) :
    (unit_map r).lookup "bbl" = some ⟨"Barrel (crude)", r⟩ := rfl

/-! ## The input parser (`parse_numbers` and Python's `float()` builtin) -/

/-- The ASCII whitespace characters on which Python's `str.split()` (no
argument) splits and which `str.strip()` removes. -/
def isPySpace (c : Char) : Bool :=
  c = ' ' || c = '\t' || c = '\n' || c = '\r' || c = '\x0b' || c = '\x0c'

/-- Python's `str.split()` with no argument: split on runs of whitespace,
discarding empty pieces. -/
def pySplit (l : List Char) : List (List Char) :=
  let step := fun (c : Char) (acc : List Char × List (List Char)) =>
    if isPySpace c then
      if acc.1 = [] then acc else ([], acc.1 :: acc.2)
    else (c :: acc.1, acc.2)
  let acc := l.foldr step ([], [])
  if acc.1 = [] then acc.2 else acc.1 :: acc.2

/-- Python's `str.strip()` with no argument: remove leading and trailing
whitespace. -/
def pyStrip (l : List Char) : List Char :=
  ((l.dropWhile isPySpace).reverse.dropWhile isPySpace).reverse

/-- Scan the tail of a digit group, Python numeric-literal style: digits
with single underscores allowed only between digits. Accumulates the value
`v` and the digit count `n`; returns `(value, digitCount, rest)` or
`none` when an underscore is not followed by a digit (which makes the
whole token malformed, as in Python's `float("1_")`). -/
def dgGo : List Char → Nat → Nat → Option (Nat × Nat × List Char)
  | [], v, n => some (v, n, [])
  | c :: cs, v, n =>
    if c.isDigit then dgGo cs (10 * v + (c.toNat - 48)) (n + 1)
    else if c = '_' then
      match cs with
      | [] => none
      | d :: ds =>
        if d.isDigit then dgGo ds (10 * v + (d.toNat - 48)) (n + 1) else none
    else some (v, n, c :: cs)

/-- A digit group of a Python float literal: starts with a digit,
underscores only between digits. Returns `(value, digitCount, rest)`. -/
def digitGroup : List Char → Option (Nat × Nat × List Char)
  | [] => none
  | c :: cs => if c.isDigit then dgGo cs (c.toNat - 48) 1 else none

/-- The exponent tail of a Python float literal: either nothing (exponent
`0`) or `e`/`E`, an optional sign and a digit group consuming the rest of
the token. -/
def expPart : List Char → Option Int
  | [] => some 0
  | c :: cs =>
    if c = 'e' || c = 'E' then
      let p := match cs with
        | '+' :: r => (false, r)
        | '-' :: r => (true, r)
        | _ => (false, cs)
      match digitGroup p.2 with
      | some (ev, _, []) => some (if p.1 then -(ev : Int) else (ev : Int))
      | _ => none
    else none

/-- The unsigned decimal part of a Python float literal:
`digits [. [digits]] [exp]` or `. digits [exp]`, with at least one
mantissa digit and nothing left over. Returns
`(mantissaDigitsValue, fractionalDigitCount, exponent)`. -/
def parseDecimal (l : List Char) : Option (Nat × Nat × Int) :=
  match digitGroup l with
  | some (ip, _, rest) =>
    match rest with
    | '.' :: rest2 =>
      (match digitGroup rest2 with
       | some (fp, fn, rest3) =>
         (expPart rest3).map (fun e => (ip * 10 ^ fn + fp, fn, e))
       | none => (expPart rest2).map (fun e => (ip, 0, e)))
    | _ => (expPart rest).map (fun e => (ip, 0, e))
  | none =>
    match l with
    | '.' :: rest2 =>
      (match digitGroup rest2 with
       | some (fp, fn, rest3) => (expPart rest3).map (fun e => (fp, fn, e))
       | none => none)
    | _ => none

/-- The syntactic shape of a string accepted by Python's builtin `float()`:
a signed decimal/scientific literal, a signed infinity (`inf`/`infinity`,
case-insensitive) or `nan`. -/
inductive PyLit where
  | num (neg : Bool) (mant fracDigits : Nat) (e : Int)
  | infty (neg : Bool)
  | nan
  deriving DecidableEq, Repr

/-- A Python float value as produced by `float()` on a token: a finite
value (modelled as an exact rational), a signed infinity, or NaN. -/
inductive PyFloat where
  | finite (q : ℚ)
  | infty (neg : Bool)
  | nan
  deriving DecidableEq, Repr

/-- Syntactic parse of a token by Python's builtin `float()` (ASCII
fragment): strip whitespace, take an optional sign, then either
`inf`/`infinity`/`nan` case-insensitively or a decimal/scientific literal
consuming the whole token. `none` models `float` raising `ValueError`. -/
def pyLit? (t : List Char) : Option PyLit :=
  let l := pyStrip t
  let p := match l with
    | '+' :: r => (false, r)
    | '-' :: r => (true, r)
    | _ => (false, l)
  let low := p.2.map Char.toLower
  if low = ['i', 'n', 'f'] || low = ['i', 'n', 'f', 'i', 'n', 'i', 't', 'y'] then
    some (.infty p.1)
  else if low = ['n', 'a', 'n'] then
    some .nan
  else
    (parseDecimal p.2).map (fun md => .num p.1 md.1 md.2.1 md.2.2)

/-- The numeric value of an accepted token: sign times mantissa digits
scaled by ten to the exponent minus the number of fractional digits. -/
def PyLit.val : PyLit → PyFloat
  | .num neg m f e => .finite ((if neg then -1 else 1) * (m : ℚ) * 10 ^ (e - (f : ℤ)))
  | .infty neg => .infty neg
  | .nan => .nan

/-- Python's builtin `float()` applied to a token: `some` value on
success, `none` when `float` raises `ValueError`. -/
def pyFloat? (t : List Char) : Option PyFloat :=
  (pyLit? t).map PyLit.val

/-- The token list of `parse_numbers`:
`[p.strip() for p in s.replace(",", " ").split()]`. -/
def pyTokens (s : String) : List (List Char) :=
  (pySplit (s.data.map (fun c => if c = ',' then ' ' else c))).map pyStrip

/-- The `for p in parts: try: out.append(float(p)) except ValueError: pass`
loop of `parse_numbers`: accumulate the parsed values, silently skipping
tokens `float` rejects. -/
def parseLoop : List (List Char) → List PyFloat → List PyFloat
  | [], out => out
  | p :: ps, out =>
    match pyFloat? p with
    | some x => parseLoop ps (out ++ [x])
    | none => parseLoop ps out

/-- `parse_numbers` of `app.py`: normalize commas to spaces, split on
whitespace, strip each part, keep the tokens `float()` accepts. -/
def parse_numbers (s : String) : List PyFloat :=
  parseLoop (pyTokens s) []

theorem parseLoop_eq_filterMap (ps : List (List Char)) (out : List PyFloat) :
    parseLoop ps out = out ++ ps.filterMap pyFloat? := by
  induction ps generalizing out with
  | nil => simp [parseLoop]
  | cons p ps ih =>
    cases h : pyFloat? p <;> simp [parseLoop, h, ih]

theorem parse_numbers_eq (s : String) :
    parse_numbers s = (pyTokens s).filterMap pyFloat? := by
  simp [parse_numbers, parseLoop_eq_filterMap]

/-! ## Evaluation lemmas for `convert` -/

@[simp] theorem factorToBase_TBtu (r : ℚ) : factorToBase r "TBtu" = 1000000 := rfl

@[simp] theorem factorToBase_MMBtu (r : ℚ) : factorToBase r "MMBtu" = 1 := rfl

@[simp] theorem factorToBase_Mth (r : ℚ) : factorToBase r "Mth" = 100000 := rfl

@[simp] theorem factorToBase_GWh (r : ℚ) :
    factorToBase r "GWh" = 3412141633 / 1000000 := rfl

@[simp] theorem factorToBase_MWh (r : ℚ) :
    factorToBase r "MWh" = 3412141633 / 1000000000 := rfl

@[simp] theorem factorToBase_bbl (r : ℚ) : factorToBase r "bbl" = r := rfl

theorem mem_UNITS_ORDER_iff (u : String) :
    u ∈ UNITS_ORDER ↔
      u = "TBtu" ∨ u = "MMBtu" ∨ u = "Mth" ∨ u = "GWh" ∨ u = "MWh" ∨
        u = "bbl" := by
  simp [UNITS_ORDER]

theorem factorToBase_pos (r : ℚ) (u : String) (hu : u ∈ UNITS_ORDER)
    (hr : 0 < r) : 0 < factorToBase r u := by
  rcases (mem_UNITS_ORDER_iff u).mp hu with rfl | rfl | rfl | rfl | rfl | rfl <;>
    simp
  exact hr

theorem convert_eval (v r : ℚ) (f t : String) (hf : f ∈ UNITS_ORDER)
    (ht : t ∈ UNITS_ORDER) (h0 : factorToBase r t ≠ 0) :
    convert v f t r = .ok (v * factorToBase r f / factorToBase r t) := by
  rcases (mem_UNITS_ORDER_iff f).mp hf with rfl | rfl | rfl | rfl | rfl | rfl <;>
    rcases (mem_UNITS_ORDER_iff t).mp ht with rfl | rfl | rfl | rfl | rfl | rfl <;>
    simp_all [convert, lookup_TBtu, lookup_MMBtu, lookup_Mth, lookup_GWh,
      lookup_MWh, lookup_bbl]

theorem lookup_unit_map_eq_none (r : ℚ) (u : String) (hu : u ∉ UNITS_ORDER) :
    (unit_map r).lookup u = none := by
  simp [mem_UNITS_ORDER_iff] at hu
  obtain ⟨h1, h2, h3, h4, h5, h6⟩ := hu
  simp [unit_map, List.lookup, beq_eq_false_iff_ne.mpr h1,
    beq_eq_false_iff_ne.mpr h2, beq_eq_false_iff_ne.mpr h3,
    beq_eq_false_iff_ne.mpr h4, beq_eq_false_iff_ne.mpr h5,
    beq_eq_false_iff_ne.mpr h6]

/-! ## Claims about the conversion engine -/

/-- Claim C1: for registered units `a`, `b` and any configuration ratio,
`convert` computes `value * factorToBase a / factorToBase b` via the MMBtu
base unit (whenever the divisor factor is nonzero, which the configuration
domain guarantees); in particular, with `mmbtuPerBarrel = 5.8`,
`convert 1 bbl MMBtu = 5.8`, `convert 1000 MWh GWh = 1` and
`convert 1 TBtu MMBtu = 1000000`. -/
theorem convert_hub_formula :
    (∀ (v r : ℚ) (a b : String), a ∈ UNITS_ORDER → b ∈ UNITS_ORDER →
        factorToBase r b ≠ 0 →
        convert v a b r = .ok (v * factorToBase r a / factorToBase r b)) ∧
    convert 1 "bbl" "MMBtu" (29 / 5) = .ok (29 / 5) ∧
    convert 1000 "MWh" "GWh" (29 / 5) = .ok 1 ∧
    convert 1 "TBtu" "MMBtu" (29 / 5) = .ok 1000000 := by
  refine ⟨fun v r a b ha hb h0 => convert_eval v r a b ha hb h0, ?_, ?_, ?_⟩
  · simp [convert, lookup_bbl, lookup_MMBtu]
  · simp [convert, lookup_MWh, lookup_GWh]
    norm_num
  · simp [convert, lookup_TBtu, lookup_MMBtu]

/-- Witness for C1 at concrete input `convert 2 Mth TBtu`. -/
theorem convert_hub_formula_witness :
    convert 2 "Mth" "TBtu" 1 = .ok (1 / 5) := by
  have h := convert_hub_formula.1 2 1 "Mth" "TBtu" (by simp [UNITS_ORDER])
    (by simp [UNITS_ORDER]) (by simp)
  rw [h]
  norm_num

/-- Claim C2: for every configuration ratio the registry has exactly the
six keys TBtu, MMBtu, Mth, GWh, MWh, bbl in that order, with the fixed
factors of the source and the bbl factor equal to the configured ratio;
the base unit MMBtu has factor exactly 1. -/
theorem unit_map_exact_registry (r : ℚ) :
    (unit_map r).map Prod.fst = ["TBtu", "MMBtu", "Mth", "GWh", "MWh", "bbl"] ∧
    factorToBase r "TBtu" = 1000000 ∧
    factorToBase r "MMBtu" = 1 ∧
    factorToBase r "Mth" = 100000 ∧
    factorToBase r "GWh" = 3412141633 / 1000000 ∧
    factorToBase r "MWh" = 3412141633 / 1000000000 ∧
    factorToBase r "bbl" = r :=
  ⟨rfl, rfl, rfl, rfl, rfl, rfl, rfl⟩

/-- Claim C5: `convert` fails with the unknown-unit error exactly when
`from_unit` or `to_unit` is not a registry key (the source unit is checked
first, as in the Python evaluation order); registered units never produce
this error; `convert 1 "XYZ" "MMBtu"` fails with it. -/
theorem convert_unknown_unit :
    (∀ (v r : ℚ) (f t : String), f ∉ UNITS_ORDER →
        convert v f t r = .error (.UnknownUnit f)) ∧
    (∀ (v r : ℚ) (f t : String), f ∈ UNITS_ORDER → t ∉ UNITS_ORDER →
        convert v f t r = .error (.UnknownUnit t)) ∧
    (∀ (v r : ℚ) (f t u : String), f ∈ UNITS_ORDER → t ∈ UNITS_ORDER →
        convert v f t r ≠ .error (.UnknownUnit u)) ∧
    convert 1 "XYZ" "MMBtu" (29 / 5) = .error (.UnknownUnit "XYZ") := by
  refine ⟨?_, ?_, ?_, rfl⟩
  · intro v r f t hf
    simp [convert, lookup_unit_map_eq_none r f hf]
  · intro v r f t hf ht
    rcases (mem_UNITS_ORDER_iff f).mp hf with rfl | rfl | rfl | rfl | rfl | rfl <;>
      simp [convert, lookup_TBtu, lookup_MMBtu, lookup_Mth, lookup_GWh,
        lookup_MWh, lookup_bbl, lookup_unit_map_eq_none r t ht]
  · intro v r f t u hf ht
    rcases (mem_UNITS_ORDER_iff f).mp hf with rfl | rfl | rfl | rfl | rfl | rfl <;>
      rcases (mem_UNITS_ORDER_iff t).mp ht with rfl | rfl | rfl | rfl | rfl | rfl <;>
      simp [convert, lookup_TBtu, lookup_MMBtu, lookup_Mth, lookup_GWh,
        lookup_MWh, lookup_bbl] <;>
      split <;> simp

/-- Witness for C5 at concrete inputs. -/
theorem convert_unknown_unit_witness :
    convert 3 "zz" "MMBtu" 2 = .error (.UnknownUnit "zz") ∧
    convert 3 "MWh" "zz" 2 = .error (.UnknownUnit "zz") ∧
    convert 3 "MWh" "GWh" 2 ≠ .error (.UnknownUnit "zz") :=
  ⟨convert_unknown_unit.1 3 2 "zz" "MMBtu" (by simp [UNITS_ORDER]),
   convert_unknown_unit.2.1 3 2 "MWh" "zz" (by simp [UNITS_ORDER])
     (by simp [UNITS_ORDER]),
   convert_unknown_unit.2.2.1 3 2 "MWh" "GWh" "zz" (by simp [UNITS_ORDER])
     (by simp [UNITS_ORDER])⟩

/-- Claim C6: converting a value from a registered unit to itself returns
the value unchanged (exactly, in the rational model of the floats; for
positive configuration ratios), and the base-unit case holds for every
configuration ratio because the MMBtu factor is exactly 1. -/
theorem convert_identity :
    (∀ (u : String) (v r : ℚ), u ∈ UNITS_ORDER → 0 < r →
        convert v u u r = .ok v) ∧
    (∀ v r : ℚ, convert v "MMBtu" "MMBtu" r = .ok v) := by
  constructor
  · intro u v r hu hr
    have hne := (factorToBase_pos r u hu hr).ne'
    rw [convert_eval v r u u hu hu hne, mul_div_assoc, div_self hne, mul_one]
  · intro v r
    simp [convert, lookup_MMBtu]

/-- Witness for C6 at concrete input `convert 7 GWh GWh`. -/
theorem convert_identity_witness : convert 7 "GWh" "GWh" 6 = .ok 7 :=
  convert_identity.1 "GWh" 7 6 (by simp [UNITS_ORDER]) (by norm_num)

/-- Claim C7: converting a value from `a` to `b` and back returns the
original value (exactly, in the rational model of the floats), for all
registered units and positive configuration ratios. -/
theorem convert_round_trip :
    ∀ (a b : String) (v r : ℚ), a ∈ UNITS_ORDER → b ∈ UNITS_ORDER → 0 < r →
      ∃ w, convert v a b r = .ok w ∧ convert w b a r = .ok v := by
  intro a b v r ha hb hr
  have hfa := (factorToBase_pos r a ha hr).ne'
  have hfb := (factorToBase_pos r b hb hr).ne'
  refine ⟨v * factorToBase r a / factorToBase r b,
    convert_eval v r a b ha hb hfb, ?_⟩
  rw [convert_eval _ r b a hb ha hfa]
  congr 1
  field_simp

/-- Witness for C7 at concrete input `convert 3 bbl GWh` and back. -/
theorem convert_round_trip_witness :
    ∃ w, convert 3 "bbl" "GWh" 6 = .ok w ∧ convert w "GWh" "bbl" 6 = .ok 3 :=
  convert_round_trip "bbl" "GWh" 3 6 (by simp [UNITS_ORDER])
    (by simp [UNITS_ORDER]) (by norm_num)

/-- Claim C8: for any two configuration ratios, `convert 1 bbl MMBtu`
returns exactly the configured ratio in each run, and
`convert 1 MWh TBtu` is identical across the two runs (conversions not
involving bbl do not depend on the ratio). -/
theorem convert_config_sensitivity :
    ∀ r₁ r₂ : ℚ,
      convert 1 "bbl" "MMBtu" r₁ = .ok r₁ ∧
      convert 1 "bbl" "MMBtu" r₂ = .ok r₂ ∧
      convert 1 "MWh" "TBtu" r₁ = convert 1 "MWh" "TBtu" r₂ := by
  intro r₁ r₂
  refine ⟨?_, ?_, ?_⟩ <;>
    simp [convert, lookup_bbl, lookup_MMBtu, lookup_MWh, lookup_TBtu]

/-- Claim C9 counterexample: with the non-positive factor
`mmbtuPerBarrel = -1`, `convert 1 MMBtu bbl` does not fail at all (there
is no `InvalidFactor` check in the code): it returns `-1`. -/
theorem convert_invalid_factor_counterexample :
    factorToBase (-1) "bbl" ≤ 0 ∧ convert 1 "MMBtu" "bbl" (-1) = .ok (-1) := by
  constructor
  · simp
  · simp [convert, lookup_MMBtu, lookup_bbl]

/-- Claim C9 amended: `convert` performs no factor-sign validation and has
no `InvalidFactor` error. A zero divisor factor fails with the
division-by-zero error, a negative factor silently yields a numeric
result, and under the strictly-positive-factor invariant `convert` on
registered units always succeeds (so the division-by-zero branch is
unreachable for valid configurations). -/
theorem convert_no_factor_validation :
    convert 1 "MMBtu" "bbl" 0 = .error .ZeroDivisionError ∧
    convert 1 "MMBtu" "bbl" (-1) = .ok (-1) ∧
    (∀ (v r : ℚ) (f t : String), f ∈ UNITS_ORDER → t ∈ UNITS_ORDER →
        0 < r → ∃ x, convert v f t r = .ok x) := by
  refine ⟨?_, ?_, ?_⟩
  · simp [convert, lookup_MMBtu, lookup_bbl]
  · simp [convert, lookup_MMBtu, lookup_bbl]
  · intro v r f t hf ht hr
    exact ⟨_, convert_eval v r f t hf ht (factorToBase_pos r t ht hr).ne'⟩

/-- Witness for C9's amended claim at concrete input `convert 1 TBtu bbl`. -/
theorem convert_no_factor_validation_witness :
    ∃ x, convert 1 "TBtu" "bbl" 1 = .ok x :=
  convert_no_factor_validation.2.2 1 1 "TBtu" "bbl" (by simp [UNITS_ORDER])
    (by simp [UNITS_ORDER]) (by norm_num)

/-! ## Claims about the input parser -/

/-- Claim C3: `parse_numbers` normalizes commas to spaces, tokenizes on
whitespace, parses each token with `float()`, silently discards tokens
that fail to parse, and returns the accepted values in input order with
duplicates preserved; `parse_numbers "1, 2.5, abc 100"` yields
`[1, 2.5, 100]`, and the empty and all-malformed inputs yield `[]`. -/
theorem parse_numbers_lenient :
    (∀ s : String, parse_numbers s = (pyTokens s).filterMap pyFloat?) ∧
    parse_numbers "1, 2.5, abc 100" =
      [.finite 1, .finite (5 / 2), .finite 100] ∧
    parse_numbers "" = [] ∧
    parse_numbers "xx yy" = [] := by
  refine ⟨parse_numbers_eq, ?_, by decide, by decide⟩
  have hp : pyTokens "1, 2.5, abc 100" =
      ["1".data, "2.5".data, "abc".data, "100".data] := by decide
  have h1 : pyLit? "1".data = some (.num false 1 0 0) := by decide
  have h2 : pyLit? "2.5".data = some (.num false 25 1 0) := by decide
  have h3 : pyLit? "abc".data = none := by decide
  have h4 : pyLit? "100".data = some (.num false 100 0 0) := by decide
  rw [parse_numbers_eq, hp]
  simp [pyFloat?, h1, h2, h3, h4, PyLit.val]
  norm_num

/-- Claim C10: `parse_numbers` is total — every token either parses or is
silently skipped, so the result is always the filter of the token list —
and tokens accepted by `float()` such as `inf`, `nan`, scientific
notation and underscored digits are kept, their (possibly non-finite)
values appearing in the output in order. -/
theorem parse_numbers_total :
    (∀ s : String, parse_numbers s = (pyTokens s).filterMap pyFloat?) ∧
    parse_numbers "inf nan 1e3" = [.infty false, .nan, .finite 1000] ∧
    parse_numbers "-inf, Infinity, NAN, 2_5 1e-2" =
      [.infty true, .infty false, .nan, .finite 25, .finite (1 / 100)] := by
  refine ⟨parse_numbers_eq, ?_, ?_⟩
  · have hp : pyTokens "inf nan 1e3" =
        ["inf".data, "nan".data, "1e3".data] := by decide
    have h1 : pyLit? "inf".data = some (.infty false) := by decide
    have h2 : pyLit? "nan".data = some .nan := by decide
    have h3 : pyLit? "1e3".data = some (.num false 1 0 3) := by decide
    rw [parse_numbers_eq, hp]
    simp [pyFloat?, h1, h2, h3, PyLit.val]
    norm_num
  · have hp : pyTokens "-inf, Infinity, NAN, 2_5 1e-2" =
        ["-inf".data, "Infinity".data, "NAN".data, "2_5".data,
         "1e-2".data] := by decide
    have h1 : pyLit? "-inf".data = some (.infty true) := by decide
    have h2 : pyLit? "Infinity".data = some (.infty false) := by decide
    have h3 : pyLit? "NAN".data = some .nan := by decide
    have h4 : pyLit? "2_5".data = some (.num false 25 0 0) := by decide
    have h5 : pyLit? "1e-2".data = some (.num false 1 0 (-2)) := by decide
    rw [parse_numbers_eq, hp]
    simp [pyFloat?, h1, h2, h3, h4, h5, PyLit.val]
    norm_num

/-! ## Claims about the batch loop -/
theorem batchInner_eval (v r : ℚ) (f : String) (ts : List String)
    (acc : List Row) (hf : f ∈ UNITS_ORDER) (ht : ∀ t ∈ ts, t ∈ UNITS_ORDER)
    (hr : 0 < r) :
    batchInner v f ts r acc = .ok (acc ++ ts.map (fun t =>
      ⟨v, f, t, v * factorToBase r f / factorToBase r t⟩)) := by
  induction ts generalizing acc with
  | nil => simp [batchInner]
  | cons t rest ih =>
    have h := convert_eval v r f t hf (ht t (by simp))
      (factorToBase_pos r t (ht t (by simp)) hr).ne'
    simp [batchInner, h, ih (acc ++ [_]) (fun x hx => ht x (by simp [hx]))]

theorem batchOuter_eval (r : ℚ) (f : String) (values : List ℚ)
    (ts : List String) (acc : List Row) (hf : f ∈ UNITS_ORDER)
    (ht : ∀ t ∈ ts, t ∈ UNITS_ORDER) (hr : 0 < r) :
    batchOuter values f ts r acc = .ok (acc ++ (values.map (fun v =>
      ts.map (fun t =>
        (⟨v, f, t, v * factorToBase r f / factorToBase r t⟩ :
          Row)))).flatten) := by
  induction values generalizing acc with
  | nil => simp [batchOuter]
  | cons v vs ih =>
    simp [batchOuter, batchInner_eval v r f ts acc hf ht hr, ih]

/-- Claim C4: the batch loop produces one row per `(value, target)` pair,
outer loop over the input values and inner loop over the target units,
each row computed by `convert`; an empty value list yields no rows, and
`convertBatch [1, 2] "MMBtu" ["bbl", "GWh"]` with `mmbtuPerBarrel = 5.8`
yields exactly the four rows `(1, bbl), (1, GWh), (2, bbl), (2, GWh)`. -/
theorem convertBatch_rows :
    (∀ (f : String) (ts : List String) (r : ℚ),
        convertBatch [] f ts r = .ok []) ∧
    (∀ (values : List ℚ) (f : String) (ts : List String) (r : ℚ),
        f ∈ UNITS_ORDER → (∀ t ∈ ts, t ∈ UNITS_ORDER) → 0 < r →
        convertBatch values f ts r =
          .ok ((values.map (fun v => ts.map (fun t =>
            (⟨v, f, t, v * factorToBase r f / factorToBase r t⟩ :
              Row)))).flatten)) ∧
    convertBatch [1, 2] "MMBtu" ["bbl", "GWh"] (29 / 5) =
      .ok [⟨1, "MMBtu", "bbl", 5 / 29⟩,
           ⟨1, "MMBtu", "GWh", 1000000 / 3412141633⟩,
           ⟨2, "MMBtu", "bbl", 10 / 29⟩,
           ⟨2, "MMBtu", "GWh", 2000000 / 3412141633⟩] := by
  have hgen : ∀ (values : List ℚ) (f : String) (ts : List String) (r : ℚ),
      f ∈ UNITS_ORDER → (∀ t ∈ ts, t ∈ UNITS_ORDER) → 0 < r →
      convertBatch values f ts r =
        .ok ((values.map (fun v => ts.map (fun t =>
          (⟨v, f, t, v * factorToBase r f / factorToBase r t⟩ :
            Row)))).flatten) := by
    intro values f ts r hf ht hr
    unfold convertBatch
    rw [batchOuter_eval r f values ts [] hf ht hr]
    simp
  refine ⟨fun f ts r => rfl, hgen, ?_⟩
  rw [hgen [1, 2] "MMBtu" ["bbl", "GWh"] (29 / 5) (by simp [UNITS_ORDER])
    (by simp [UNITS_ORDER]) (by norm_num)]
  simp
  norm_num

/-- Witness for C4 at concrete input `convertBatch [3] MWh [MWh]`. -/
theorem convertBatch_rows_witness :
    convertBatch [3] "MWh" ["MWh"] 1 = .ok [⟨3, "MWh", "MWh", 3⟩] := by
  have h := convertBatch_rows.2.1 [3] "MWh" ["MWh"] 1 (by simp [UNITS_ORDER])
    (by simp [UNITS_ORDER]) (by norm_num)
  rw [h]
  simp
